import Mathlib

/-!
Shallow embedding of the body-composition analytics backend.

Conventions used throughout:
* timestamps (timezone-naive datetimes) are rational numbers of seconds
  since the epoch; calendar days are integers of epoch days;
* metric values are rationals; Python floats are modelled exactly, and the
  two-decimal rounding round(v, 2) is modelled with the half-up integer
  rounding of Mathlib (the developments below never evaluate it at an
  exact half-cent, where Python's banker rounding would differ);
* fallible code returns Except String; a pydantic validation error on
  model construction is an Except.error.
-/

/-- Rounding to two decimal places, as Python round(v, 2). -/
def round2 (q : ℚ) : ℚ := ((round (q * 100) : ℤ) : ℚ) / 100

/-- Truncation of a rational toward zero, the semantics of a polars
duration's total_days (Rust integer division of microseconds). -/
def qtrunc (q : ℚ) : ℤ := if 0 ≤ q then ⌊q⌋ else -⌊-q⌋

/-- Truncation of a timestamp to midnight of its day, as
datetime.replace(hour=0, minute=0, second=0, microsecond=0). -/
def midnight (t : ℚ) : ℚ := (⌊t / 86400⌋ : ℚ) * 86400

/-- Arithmetic mean of a list of rationals, as polars mean on a
non-empty column. -/
def mean_q (xs : List ℚ) : ℚ := xs.sum / (xs.length : ℚ)

/-! Variation analyzer (backend/routers/charts.py, get_variation_card). -/

/-- Percentage variation of the net gains, lines 308-317 of charts.py. -/
def variation (previous_gain current_gain : ℚ) : ℚ :=
  if previous_gain = 0 then
    if current_gain = 0 then 0
    else if current_gain > 0 then 100 else -100
  else ((current_gain - previous_gain) / |previous_gain|) * 100

/-- The five metric fields served by the API. -/
inductive Metric : Type where
  | muscleMass
  | weight
  | bodyFatMass
  | totalBodyWater
  | basalMetabolicRate
  deriving DecidableEq

/-- Polarity table positive_measures of charts.py: true means the metric
is better when it increases. -/
def positive_measures : Metric → Bool
  | .muscleMass => true
  | .weight => true
  | .bodyFatMass => false
  | .totalBodyWater => true
  | .basalMetabolicRate => true

/-- Favorability classification, lines 319-326 of charts.py: for a
positive measure the variation is favorable when it is strictly positive,
for a negative measure when it is strictly negative. -/
def variation_is_positive (m : Metric) (v : ℚ) : Bool :=
  if positive_measures m then decide (0 < v) else decide (v < 0)

/-! Variation-card date window derivation (charts.py lines 224-267).
Date query parameters are epoch days; fromisoformat of a YYYY-MM-DD
string yields midnight of that day. -/

/-- Start instant of the current window: midnight of the start date. -/
def vc_start (sd : ℤ) : ℚ := (sd : ℚ) * 86400

/-- Offset of 23:59:59.999999 past midnight, the replace() applied to
the end date. -/
def day_end_offset : ℚ := 86399 + 999999 / 1000000

/-- End instant of the current window: end date at 23:59:59.999999. -/
def vc_end (ed : ℤ) : ℚ := (ed : ℚ) * 86400 + day_end_offset

/-- Whole days from start to end, Python timedelta.days (floor). -/
def vc_days (sd ed : ℤ) : ℤ := ⌊(vc_end ed - vc_start sd) / 86400⌋

/-- Start of the previous window: start minus the day count. -/
def previous_period_start (sd ed : ℤ) : ℚ :=
  vc_start sd - (vc_days sd ed : ℚ) * 86400

/-- Membership in the current window, the filter of charts.py line 260. -/
def in_current_range (sd ed : ℤ) (t : ℚ) : Prop :=
  vc_start sd ≤ t ∧ t ≤ vc_end ed

/-- Membership in the previous window, the filter of charts.py line 265. -/
def in_previous_range (sd ed : ℤ) (t : ℚ) : Prop :=
  previous_period_start sd ed ≤ t ∧ t < vc_start sd

/-- Extent in seconds of the current window. -/
def current_range_length (sd ed : ℤ) : ℚ := vc_end ed - vc_start sd

/-- Extent in seconds of the previous window. -/
def previous_range_length (sd ed : ℤ) : ℚ :=
  vc_start sd - previous_period_start sd ed

/-! Bucketing engine (charts.py, get_time_progression). -/

/-- One measurement record projected to the selected field:
measureDate (seconds since epoch) and the metric value. -/
structure Meas : Type where
  ts : ℚ
  val : ℚ
  deriving DecidableEq

/-- MongoDB match stage of get_time_progression: inclusive
measureDate range filter. -/
def match_range (s e : ℚ) (rs : List Meas) : List Meas :=
  rs.filter (fun r => decide (s ≤ r.ts) && decide (r.ts ≤ e))

/-- Maximum measureDate of a (non-empty) record list; 0 on the empty
list, which the handler rules out with its 404 check. -/
def max_ts : List Meas → ℚ
  | [] => 0
  | r :: rest => rest.foldl (fun a x => max a x.ts) r.ts

/-- Minimum measureDate of a (non-empty) record list. -/
def min_ts : List Meas → ℚ
  | [] => 0
  | r :: rest => rest.foldl (fun a x => min a x.ts) r.ts

/-- Effective end date, charts.py lines 161-164: if the maximum observed
date is before the requested end, clamp the end down to that maximum
truncated to midnight. -/
def effective_end (e : ℚ) (rs : List Meas) : ℚ :=
  if max_ts rs < e then midnight (max_ts rs) else e

/-- Whole days between the start instant and a timestamp, the polars
expression (measureDate - start).dt.total_days() of line 171. -/
def days_since_start (s t : ℚ) : ℤ := qtrunc ((t - s) / 86400)

/-- Bucket index, line 172: floor division of the day count by the
bucket width. -/
def time_group (s : ℚ) (w : ℤ) (t : ℚ) : ℤ :=
  Int.fdiv (days_since_start s t) w

/-- Distinct bucket indices in ascending order, the group_by followed by
sort of lines 176-181. -/
def group_keys (s : ℚ) (w : ℤ) (rs : List Meas) : List ℤ :=
  List.insertionSort (fun a b => a ≤ b)
    ((rs.map (fun r => time_group s w r.ts)).dedup)

/-- Records of one bucket. -/
def group_of (s : ℚ) (w : ℤ) (k : ℤ) (rs : List Meas) : List Meas :=
  rs.filter (fun r => decide (time_group s w r.ts = k))

/-- Midpoint of a bucket: group start date plus half the distance to the
group end date, charts.py line 194. -/
def mid_ts (g : List Meas) : ℚ := min_ts g + (max_ts g - min_ts g) / 2

/-- Representative date of a bucket, lines 192-201: the midpoint, capped
at the effective end date. -/
def representative_date (effE : ℚ) (g : List Meas) : ℚ :=
  if effE < mid_ts g then effE else mid_ts g

/-- Sample variance (ddof = 1) of a value list, the quantity under the
square root of polars std. -/
def sample_var (xs : List ℚ) : ℚ :=
  (xs.map (fun x => (x - mean_q xs) ^ 2)).sum / ((xs.length : ℚ) - 1)

/-- Column std_value of line 178: polars std with ddof = 1, which is
null on groups of fewer than two samples. -/
noncomputable def std_value (xs : List ℚ) : Option ℝ :=
  if 2 ≤ xs.length then some (Real.sqrt ((sample_var xs : ℚ) : ℝ)) else none

/-- The fill_null(0) of charts.py line 184. -/
def fill_null_zero (o : Option ℝ) : ℝ := o.getD 0

/-- Standard deviation emitted in a TimeProgressionPoint, line 204:
the filled column rounded to two decimals (its type is a plain float,
so the output can never hold a null). -/
noncomputable def emitted_std (xs : List ℚ) : ℝ :=
  ((round (fill_null_zero (std_value xs) * 100) : ℤ) : ℝ) / 100

/-! Relationship aggregator (charts.py, get_scatter; backend/models.py). -/

/-- One document of the day-grouped aggregation pipeline: the day key
(an epoch day, from the %Y-%m-%d string) and the per-day averages of the
two selected fields. -/
structure DayDoc : Type where
  day : ℤ
  avg_x : ℚ
  avg_y : ℚ
  deriving DecidableEq

/-- ScatterPoint of models.py; its x and y fields carry the pydantic
bound ge=0. -/
structure ScatterPoint : Type where
  x : ℚ
  y : ℚ
  date : ℤ
  elapseDays : ℤ
  deriving DecidableEq

/-- Construction of a ScatterPoint from one aggregation document,
charts.py lines 79-86; pydantic rejects a negative x or y (ge=0), which
aborts the request. -/
def mk_scatter_point (startDay : ℤ) (d : DayDoc) : Except String ScatterPoint :=
  if round2 d.avg_x < 0 ∨ round2 d.avg_y < 0 then
    Except.error "ScatterPoint validation: value must be >= 0"
  else
    Except.ok
      { x := round2 d.avg_x
        y := round2 d.avg_y
        date := d.day
        elapseDays := d.day - startDay }

/-- The result-building loop of charts.py lines 78-88: each document
becomes one point, and the first validation failure aborts everything. -/
def build_points (startDay : ℤ) : List DayDoc → Except String (List ScatterPoint)
  | [] => Except.ok []
  | d :: ds => do
    let p ← mk_scatter_point startDay d
    let ps ← build_points startDay ds
    Except.ok (p :: ps)

/-- Population covariance of two equal-length series. -/
def cov_pop (xs ys : List ℚ) : ℚ :=
  mean_q ((xs.zip ys).map (fun p => (p.1 - mean_q xs) * (p.2 - mean_q ys)))

/-- Population variance of a series. -/
def var_pop (xs : List ℚ) : ℚ := mean_q (xs.map (fun x => (x - mean_q xs) ^ 2))

/-- Pearson correlation coefficient np.corrcoef(x, y)[0, 1]. -/
noncomputable def pearson (xs ys : List ℚ) : ℝ :=
  ((cov_pop xs ys : ℚ) : ℝ) /
    (Real.sqrt ((var_pop xs : ℚ) : ℝ) * Real.sqrt ((var_pop ys : ℚ) : ℝ))

/-- Correlation computed by charts.py lines 90-99: None unless both
series hold more than one value (np.corrcoef raises no exception on
numeric input, so the except branch also yields None only). -/
noncomputable def correlation_of (xs ys : List ℚ) : Option ℝ :=
  if 1 < xs.length ∧ 1 < ys.length then some (pearson xs ys) else none

/-- MetricsRelationshipChart of models.py: correlation is declared as a
required float. -/
structure MetricsRelationshipChart : Type where
  correlation : ℝ
  dataPoints : List ScatterPoint

/-- Validation pydantic applies to the required float field correlation
when the response model is constructed: a None value is rejected. -/
def validate_required_float (o : Option ℝ) : Except String ℝ :=
  match o with
  | none => Except.error "MetricsRelationshipChart validation: correlation must be a float, not None"
  | some r => Except.ok r

/-- The get_scatter handler after the store query: build the points,
compute the correlation, construct the response model (whose validation
can fail). -/
noncomputable def get_scatter (startDay : ℤ) (docs : List DayDoc) :
    Except String MetricsRelationshipChart := do
  let pts ← build_points startDay docs
  let corr ← validate_required_float
    (correlation_of (docs.map (fun d => round2 d.avg_x))
      (docs.map (fun d => round2 d.avg_y)))
  Except.ok { correlation := corr, dataPoints := pts }

/-! Record normalizer (utils/data_processing.py, load_data): the per-day
deduplication step of lines 98-113, acting on the already typed and
rounded rows. -/

/-- One typed row of the load_data frame before deduplication. -/
structure RawRow : Type where
  create_time : ℚ
  weight : ℚ
  muscle_mass : ℚ
  body_fat_mass : ℚ
  basal_metabolic_rate : ℤ
  deriving DecidableEq, Inhabited

/-- Calendar day of a timestamp, the dt.date() of line 103. -/
def day_of (t : ℚ) : ℤ := ⌊t / 86400⌋

/-- Ascending sort by create_time, line 99. -/
def sort_by_time (rs : List RawRow) : List RawRow :=
  List.insertionSort (fun a b => a.create_time ≤ b.create_time) rs

/-- Rows of one calendar day in chronological order (the day groups are
taken from the frame already sorted by create_time). -/
def group_rows (rs : List RawRow) (d : ℤ) : List RawRow :=
  (sort_by_time rs).filter (fun r => decide (day_of r.create_time = d))

/-- Aggregation of one day group, lines 104-111: first timestamp of the
day, per-field mean of the metric values (masses rounded to 2 decimals,
metabolic rate rounded to an integer). -/
def agg_day (g : List RawRow) : RawRow :=
  { create_time := g.headI.create_time
    weight := round2 (mean_q (g.map RawRow.weight))
    muscle_mass := round2 (mean_q (g.map RawRow.muscle_mass))
    body_fat_mass := round2 (mean_q (g.map RawRow.body_fat_mass))
    basal_metabolic_rate :=
      round (mean_q (g.map (fun r => (r.basal_metabolic_rate : ℚ)))) }

/-- Distinct calendar days present in the frame. -/
def dedup_days (rs : List RawRow) : List ℤ :=
  (rs.map (fun r => day_of r.create_time)).dedup

/-- The whole deduplication step: one aggregated row per distinct day. -/
def dedup_by_day (rs : List RawRow) : List RawRow :=
  (dedup_days rs).map (fun d => agg_day (group_rows rs d))

/-- Modelled from the spec: the keep-first-of-day policy of section 4.1,
keeping only the chronologically first record of each day, every field
taken from that record. -/
def keep_first_policy (rs : List RawRow) : List RawRow :=
  (dedup_days rs).map (fun d => (group_rows rs d).headI)

/-- Modelled from the spec: the mean-of-day variant of section 4.1,
replacing all same-day records with their per-field mean. -/
def mean_of_day_policy (rs : List RawRow) : List RawRow :=
  (dedup_days rs).map (fun d =>
    { create_time := mean_q ((group_rows rs d).map RawRow.create_time)
      weight := round2 (mean_q ((group_rows rs d).map RawRow.weight))
      muscle_mass := round2 (mean_q ((group_rows rs d).map RawRow.muscle_mass))
      body_fat_mass := round2 (mean_q ((group_rows rs d).map RawRow.body_fat_mass))
      basal_metabolic_rate :=
        round (mean_q ((group_rows rs d).map
          (fun r => (r.basal_metabolic_rate : ℚ)))) })

/-! Bulk ingestion (backend/database/upload_data.py,
upload_body_composition_data). -/

/-- One row of the selected upload frame after the type casts: every
column is nullable at this stage. -/
structure UploadRow : Type where
  create_time : Option ℚ
  time_offset : Option String
  weight : Option ℚ
  skeletal_muscle_mass : Option ℚ
  body_fat_mass : Option ℚ
  basal_metabolic_rate : Option ℤ
  total_body_water : Option ℚ
  deviceuuid : Option String
  deriving DecidableEq

/-- The with_columns rounding of upload_data.py lines 36-46, applied
through the nulls. -/
def process_row (r : UploadRow) : UploadRow :=
  { r with
    weight := r.weight.map round2
    skeletal_muscle_mass := r.skeletal_muscle_mass.map round2
    body_fat_mass := r.body_fat_mass.map round2
    total_body_water := r.total_body_water.map round2 }

/-- One document of the body_composition collection; the data model
declares every field nullable. -/
structure StoredDoc : Type where
  measureDate : Option ℚ
  timeOffset : Option String
  weight : Option ℚ
  muscleMass : Option ℚ
  bodyFatMass : Option ℚ
  basalMetabolicRate : Option ℤ
  totalBodyWater : Option ℚ
  deviceId : Option String
  deriving DecidableEq

/-- The column renaming of upload_data.py lines 50-61. -/
def rename_row (r : UploadRow) : StoredDoc :=
  { measureDate := r.create_time
    timeOffset := r.time_offset
    weight := r.weight
    muscleMass := r.skeletal_muscle_mass
    bodyFatMass := r.body_fat_mass
    basalMetabolicRate := r.basal_metabolic_rate
    totalBodyWater := r.total_body_water
    deviceId := r.deviceuuid }

/-- The drop_nulls of upload_data.py line 64: keep only rows where all
eight selected columns are non-null. -/
def drop_nulls (ds : List StoredDoc) : List StoredDoc :=
  ds.filter (fun d =>
    d.measureDate.isSome && d.timeOffset.isSome && d.weight.isSome &&
    d.muscleMass.isSome && d.bodyFatMass.isSome &&
    d.basalMetabolicRate.isSome && d.totalBodyWater.isSome &&
    d.deviceId.isSome)

/-- One UpdateOne upsert operation: the (measureDate, deviceId) filter
and the full document passed to $set. -/
structure UpsertOp : Type where
  keyDate : Option ℚ
  keyDevice : Option String
  doc : StoredDoc
  deriving DecidableEq

/-- The bulk operation list of upload_data.py lines 72-79. -/
def upload_ops (rs : List UploadRow) : List UpsertOp :=
  (drop_nulls ((rs.map process_row).map rename_row)).map
    (fun d => { keyDate := d.measureDate, keyDevice := d.deviceId, doc := d })

/-- Upsert semantics of one UpdateOne with $set of the full document:
replace every matching document, or insert when none matches. -/
def apply_op (store : List StoredDoc) (op : UpsertOp) : List StoredDoc :=
  if store.any (fun d =>
      decide (d.measureDate = op.keyDate) && decide (d.deviceId = op.keyDevice)) then
    store.map (fun d =>
      if d.measureDate = op.keyDate ∧ d.deviceId = op.keyDevice then op.doc else d)
  else
    store ++ [op.doc]

/-- Application of a whole bulk-write to the collection. -/
def apply_ops (store : List StoredDoc) (ops : List UpsertOp) : List StoredDoc :=
  ops.foldl apply_op store

/-- All five metric fields of a stored document are non-null. -/
def metrics_non_null (d : StoredDoc) : Prop :=
  d.weight.isSome ∧ d.muscleMass.isSome ∧ d.bodyFatMass.isSome ∧
    d.basalMetabolicRate.isSome ∧ d.totalBodyWater.isSome

/-- All eight selected fields of a stored document are non-null. -/
def all_fields_non_null (d : StoredDoc) : Prop :=
  d.measureDate.isSome ∧ d.timeOffset.isSome ∧ d.weight.isSome ∧
    d.muscleMass.isSome ∧ d.bodyFatMass.isSome ∧
    d.basalMetabolicRate.isSome ∧ d.totalBodyWater.isSome ∧ d.deviceId.isSome

/-- Whether a fallible request produced a response instead of an error. -/
def is_ok {ε α : Type} : Except ε α → Bool
  | Except.ok _ => true
  | Except.error _ => false

/-! Concrete scenarios used to settle the claims. -/

/-- Two aggregated days whose x series holds one (slightly) negative
per-day mean. -/
def exC9 : List DayDoc :=
  [{ day := 20089, avg_x := -1 / 1000, avg_y := 50 },
   { day := 20090, avg_x := 1, avg_y := 60 }]

/-- Midnight of 2025-01-01, which is epoch day 20089. -/
def jan1_2025 : ℚ := 20089 * 86400

/-- Fifty-six consecutive daily records starting 2025-01-01, one per
midnight. -/
def ex56 : List Meas :=
  (List.range 56).map
    (fun i : ℕ => { ts := jan1_2025 + (i : ℚ) * 86400, val := 70 })

/-- End of the 56-day scenario: the 56th day. -/
def ex56_end : ℚ := jan1_2025 + 55 * 86400

/-- Two records on day 1 (10:00 and 12:00) of a ten-day query window
starting at epoch 0: the maximum observed date is far before the
requested end. -/
def exC4 : List Meas := [{ ts := 122400, val := 70 }, { ts := 129600, val := 71 }]

/-- Two records on the same calendar day, two hours apart, with
different metric values. -/
def ex8 : List RawRow :=
  [{ create_time := 0, weight := 70, muscle_mass := 30,
     body_fat_mass := 20, basal_metabolic_rate := 1500 },
   { create_time := 7200, weight := 80, muscle_mass := 32,
     body_fat_mass := 22, basal_metabolic_rate := 1600 }]

/-- The single aggregated row the deduplication step produces on ex8. -/
def agg_ex8_row : RawRow :=
  { create_time := 0, weight := 75, muscle_mass := 31,
    body_fat_mass := 21, basal_metabolic_rate := 1550 }

/-- An upload batch with one complete row and one row whose weight is
null. -/
def exUpload : List UploadRow :=
  [{ create_time := some 0, time_offset := some "UTC+0100",
     weight := some (70456 / 1000), skeletal_muscle_mass := some 30,
     body_fat_mass := some 20, basal_metabolic_rate := some 1500,
     total_body_water := some 40, deviceuuid := some "devA" },
   { create_time := some 86400, time_offset := some "UTC+0100",
     weight := none, skeletal_muscle_mass := some 31,
     body_fat_mass := some 21, basal_metabolic_rate := some 1510,
     total_body_water := some 41, deviceuuid := some "devA" }]

/-! Helper lemmas. -/

/-- Binding a successful Except runs the continuation. -/
theorem ebind_ok {α β : Type} (a : α) (f : α → Except String β) :
    Except.bind (Except.ok a) f = f a := rfl

/-- Binding a failed Except propagates the error. -/
theorem ebind_error {α β : Type} (msg : String) (f : α → Except String β) :
    Except.bind (Except.error msg) f = Except.error msg := rfl

/-- Unfolding of the scatter-point loop on a cons cell. -/
theorem build_points_cons (sd : ℤ) (d : DayDoc) (ds : List DayDoc) :
    build_points sd (d :: ds) =
      Except.bind (mk_scatter_point sd d)
        (fun p => Except.bind (build_points sd ds)
          (fun ps => Except.ok (p :: ps))) := rfl

/-- Integer floor division agrees with the rational floor of the
quotient for a positive divisor. -/
theorem fdiv_eq_floor (a w : ℤ) (hw : 0 < w) :
    Int.fdiv a w = ⌊(a : ℚ) / (w : ℚ)⌋ := by
  lift w to ℕ using hw.le
  rw [show ((w : ℤ) : ℚ) = (w : ℚ) by push_cast; ring]
  rw [Rat.floor_intCast_div_natCast, Int.fdiv_eq_ediv a (by positivity)]

/-- A record surviving the match stage lies inside the date range. -/
theorem mem_match_range {s e : ℚ} {rs : List Meas} {r : Meas}
    (h : r ∈ match_range s e rs) : s ≤ r.ts ∧ r.ts ≤ e := by
  simp only [match_range, List.mem_filter, Bool.and_eq_true, decide_eq_true_eq] at h
  exact h.2

/-- On timestamps at or after the start, the day count is a plain
floor. -/
theorem days_since_in_range (s t : ℚ) (h : s ≤ t) :
    days_since_start s t = ⌊(t - s) / 86400⌋ := by
  unfold days_since_start qtrunc
  rw [if_pos (div_nonneg (sub_nonneg.mpr h) (by norm_num))]

/-- Bucket index of the i-th daily record relative to the start. -/
theorem tg_daily (s : ℚ) (w : ℤ) (i : ℕ) :
    time_group s w (s + (i : ℚ) * 86400) = Int.fdiv (i : ℤ) w := by
  unfold time_group
  congr 1
  unfold days_since_start qtrunc
  rw [show s + (i : ℚ) * 86400 - s = (i : ℚ) * 86400 by ring]
  rw [mul_div_cancel_right₀ _ (by norm_num : (86400 : ℚ) ≠ 0)]
  rw [if_pos (by positivity : (0 : ℚ) ≤ (i : ℚ))]
  exact Int.floor_natCast i

/-- The variation-card day count is the difference of the epoch days. -/
theorem vc_days_eq (sd ed : ℤ) : vc_days sd ed = ed - sd := by
  unfold vc_days
  rw [show (vc_end ed - vc_start sd) / 86400 =
      ((ed - sd : ℤ) : ℚ) + day_end_offset / 86400 by
    unfold vc_end vc_start day_end_offset; push_cast; ring]
  rw [Int.floor_int_add]
  norm_num [day_end_offset]

/-- All 56 daily records of the scenario survive the match stage. -/
theorem match56 : match_range jan1_2025 ex56_end ex56 = ex56 := by
  apply List.filter_eq_self.mpr
  intro a ha
  simp only [ex56, List.mem_map, List.mem_range] at ha
  obtain ⟨i, hi, rfl⟩ := ha
  simp only [Bool.and_eq_true, decide_eq_true_eq]
  have hle : (i : ℚ) ≤ 55 := by exact_mod_cast Nat.lt_succ_iff.mp hi
  constructor
  · exact le_add_of_nonneg_right (by positivity)
  · unfold ex56_end
    have : (i : ℚ) * 86400 ≤ 55 * 86400 :=
      mul_le_mul_of_nonneg_right hle (by norm_num)
    linarith

/-- The 56-day scenario produces exactly the bucket indices 0 and 1. -/
theorem keys56 :
    group_keys jan1_2025 28 (match_range jan1_2025 ex56_end ex56) = [0, 1] := by
  unfold group_keys
  rw [match56]
  unfold ex56
  rw [List.map_map]
  rw [List.map_congr_left (fun i _ => by
    simp only [Function.comp]
    exact tg_daily jan1_2025 28 i)]
  decide

/-- Bucket 0 of the 56-day scenario holds the first 28 records. -/
theorem take56 :
    group_of jan1_2025 28 0 (match_range jan1_2025 ex56_end ex56) = ex56.take 28 := by
  rw [match56]
  unfold group_of ex56
  rw [List.filter_map]
  rw [List.filter_congr (fun i _ => by
    simp only [Function.comp]
    rw [tg_daily jan1_2025 28 i])]
  rw [show (List.range 56).filter (fun i : ℕ => decide (Int.fdiv (i : ℤ) 28 = 0)) =
      (List.range 56).take 28 from by decide]
  exact List.map_take _ _ _

/-- Bucket 1 of the 56-day scenario holds the last 28 records. -/
theorem drop56 :
    group_of jan1_2025 28 1 (match_range jan1_2025 ex56_end ex56) = ex56.drop 28 := by
  rw [match56]
  unfold group_of ex56
  rw [List.filter_map]
  rw [List.filter_congr (fun i _ => by
    simp only [Function.comp]
    rw [tg_daily jan1_2025 28 i])]
  rw [show (List.range 56).filter (fun i : ℕ => decide (Int.fdiv (i : ℤ) 28 = 1)) =
      (List.range 56).drop 28 from by decide]
  exact List.map_drop _ _ _

/-- Maximum observed timestamp of the two-record scenario. -/
theorem max_exC4 : max_ts exC4 = 129600 := by
  simp [max_ts, exC4, max_def]
  norm_num

/-- The day group equals, up to permutation, the plain day filter of the
unsorted frame. -/
theorem perm_group_rows (rs : List RawRow) (d : ℤ) :
    List.Perm (group_rows rs d)
      (rs.filter (fun r => decide (day_of r.create_time = d))) :=
  (List.perm_insertionSort _ rs).filter _

/-- Day groups are chronologically sorted. -/
theorem sorted_group_rows (rs : List RawRow) (d : ℤ) :
    (group_rows rs d).Sorted (fun a b : RawRow => a.create_time ≤ b.create_time) := by
  haveI : IsTotal RawRow (fun a b : RawRow => a.create_time ≤ b.create_time) :=
    ⟨fun a b => le_total _ _⟩
  haveI : IsTrans RawRow (fun a b : RawRow => a.create_time ≤ b.create_time) :=
    ⟨fun _ _ _ => le_trans⟩
  exact (List.sorted_insertionSort _ rs).filter _

/-- Per-field means are insensitive to the sorting of the day group. -/
theorem mean_group_rows (rs : List RawRow) (d : ℤ) (f : RawRow → ℚ) :
    mean_q ((group_rows rs d).map f) =
      mean_q ((rs.filter (fun r => decide (day_of r.create_time = d))).map f) := by
  have h := (perm_group_rows rs d).map f
  rw [mean_q, mean_q, h.sum_eq, h.length_eq]

/-- For a day present in the frame, its group is non-empty, its head is
one of the frame's rows of that day, and its head is chronologically
first. -/
theorem group_rows_day (rs : List RawRow) (d : ℤ) (hd : d ∈ dedup_days rs) :
    group_rows rs d ≠ [] ∧
    (group_rows rs d).headI ∈ rs ∧
    day_of (group_rows rs d).headI.create_time = d ∧
    (∀ r ∈ rs, day_of r.create_time = d →
      (group_rows rs d).headI.create_time ≤ r.create_time) := by
  simp only [dedup_days, List.mem_dedup, List.mem_map] at hd
  obtain ⟨r0, hr0, hr0d⟩ := hd
  have hr0f : r0 ∈ rs.filter (fun r => decide (day_of r.create_time = d)) :=
    List.mem_filter.mpr ⟨hr0, by simp [hr0d]⟩
  have hr0g : r0 ∈ group_rows rs d := (perm_group_rows rs d).mem_iff.mpr hr0f
  have hne : group_rows rs d ≠ [] := List.ne_nil_of_mem hr0g
  rcases hg : group_rows rs d with _ | ⟨a, t⟩
  · exact absurd hg hne
  · have hsorted := sorted_group_rows rs d
    rw [hg] at hsorted
    have hmins := (List.sorted_cons.mp hsorted).1
    have hmem : ∀ b ∈ group_rows rs d, a.create_time ≤ b.create_time := by
      intro b hb
      rw [hg] at hb
      rcases List.mem_cons.mp hb with rfl | hb
      · exact le_refl _
      · exact hmins b hb
    have haf : a ∈ rs.filter (fun r => decide (day_of r.create_time = d)) :=
      (perm_group_rows rs d).mem_iff.mp (hg ▸ List.mem_cons_self a t)
    have ha := List.mem_filter.mp haf
    refine ⟨hg ▸ List.cons_ne_nil a t, ?_, ?_, ?_⟩
    · simpa using ha.1
    · simpa using ha.2
    · intro r hr hrd
      have : r ∈ group_rows rs d := (perm_group_rows rs d).mem_iff.mpr
        (List.mem_filter.mpr ⟨hr, by simp [hrd]⟩)
      simpa [hg] using hmem r this

/-- The aggregated row keeps the first timestamp of its group. -/
theorem agg_day_create_time (g : List RawRow) :
    (agg_day g).create_time = g.headI.create_time := rfl

/-- Two same-day rows are already sorted by time. -/
theorem sort_ex8 : sort_by_time ex8 = ex8 := by
  simp only [sort_by_time, ex8, List.insertionSort, List.orderedInsert]
  rw [if_pos (by norm_num)]

/-- The two-row scenario spans exactly one calendar day. -/
theorem days_ex8 : dedup_days ex8 = [0] := by
  have hd1 : day_of (0 : ℚ) = 0 := by norm_num [day_of]
  have hd2 : day_of (7200 : ℚ) = 0 := by norm_num [day_of]
  simp [dedup_days, ex8, hd1, hd2]

/-- The single day group of the two-row scenario holds both rows. -/
theorem group_ex8 : group_rows ex8 0 = ex8 := by
  have hd1 : day_of (0 : ℚ) = 0 := by norm_num [day_of]
  have hd2 : day_of (7200 : ℚ) = 0 := by norm_num [day_of]
  rw [group_rows, sort_ex8]
  simp [ex8, hd1, hd2]

/-- Value of the deduplication step on the two-row scenario: first
timestamp of the day, mean metric values. -/
theorem dedup_ex8 : dedup_by_day ex8 = [agg_ex8_row] := by
  rw [dedup_by_day, days_ex8]
  simp only [List.map_cons, List.map_nil]
  rw [group_ex8]
  simp [agg_day, agg_ex8_row, ex8, mean_q]
  norm_num [round2, round_eq]

/-- Value of the spec's keep-first policy on the two-row scenario. -/
theorem keep_first_ex8 : keep_first_policy ex8 =
    [{ create_time := 0, weight := 70, muscle_mass := 30,
       body_fat_mass := 20, basal_metabolic_rate := 1500 }] := by
  rw [keep_first_policy, days_ex8]
  simp only [List.map_cons, List.map_nil]
  rw [group_ex8]
  simp [ex8]

/-- Value of the spec's mean-of-day policy on the two-row scenario. -/
theorem mean_of_day_ex8 : mean_of_day_policy ex8 =
    [{ create_time := 3600, weight := 75, muscle_mass := 31,
       body_fat_mass := 21, basal_metabolic_rate := 1550 }] := by
  rw [mean_of_day_policy, days_ex8]
  simp only [List.map_cons, List.map_nil]
  rw [group_ex8]
  simp [ex8, mean_q]
  norm_num [round2, round_eq]

/-- A document present after one upsert was either written by it or was
already stored. -/
theorem mem_apply_op {store : List StoredDoc} {op : UpsertOp} {d : StoredDoc}
    (hd : d ∈ apply_op store op) : d = op.doc ∨ d ∈ store := by
  unfold apply_op at hd
  split_ifs at hd with hc
  · obtain ⟨d0, hd0, hite⟩ := List.mem_map.mp hd
    by_cases hk : d0.measureDate = op.keyDate ∧ d0.deviceId = op.keyDevice
    · rw [if_pos hk] at hite; exact Or.inl hite.symm
    · rw [if_neg hk] at hite; exact Or.inr (hite ▸ hd0)
  · rcases List.mem_append.mp hd with h | h
    · exact Or.inr h
    · exact Or.inl (List.mem_singleton.mp h)

/-- Bulk writes whose documents all have non-null metrics preserve the
all-metrics-non-null store invariant. -/
theorem apply_ops_non_null (ops : List UpsertOp)
    (hops : ∀ op ∈ ops, metrics_non_null op.doc) :
    ∀ store, (∀ d ∈ store, metrics_non_null d) →
      ∀ d ∈ apply_ops store ops, metrics_non_null d := by
  induction ops with
  | nil => intro store hstore d hd; exact hstore d hd
  | cons op ops ih =>
    intro store hstore d hd
    rw [show apply_ops store (op :: ops) = apply_ops (apply_op store op) ops
      from rfl] at hd
    refine ih (fun o ho => hops o (List.mem_cons_of_mem _ ho))
      (apply_op store op) ?_ d hd
    intro d' hd'
    rcases mem_apply_op hd' with rfl | h
    · exact hops op (List.mem_cons_self _ _)
    · exact hstore d' h

/-- Every operation of a bulk upload carries a fully populated
document. -/
theorem upload_ops_all_non_null (rs : List UploadRow) :
    ∀ op ∈ upload_ops rs, all_fields_non_null op.doc := by
  intro op hop
  rw [upload_ops] at hop
  obtain ⟨doc, hdoc, rfl⟩ := List.mem_map.mp hop
  have hp := (List.mem_filter.mp hdoc).2
  simp only [Bool.and_eq_true] at hp
  obtain ⟨⟨⟨⟨⟨⟨⟨p1, p2⟩, p3⟩, p4⟩, p5⟩, p6⟩, p7⟩, p8⟩ := hp
  exact ⟨p1, p2, p3, p4, p5, p6, p7, p8⟩

/-- Value of the bulk-operation list on the example batch: the complete
row survives, the row with a null weight is dropped. -/
theorem upload_ops_exUpload :
    upload_ops exUpload =
      [{ keyDate := some 0, keyDevice := some "devA",
         doc := { measureDate := some 0, timeOffset := some "UTC+0100",
                  weight := some (round2 (70456 / 1000)),
                  muscleMass := some (round2 30), bodyFatMass := some (round2 20),
                  basalMetabolicRate := some 1500,
                  totalBodyWater := some (round2 40), deviceId := some "devA" } }] := by
  simp [upload_ops, exUpload, process_row, rename_row, drop_nulls]

/-! Claim theorems. -/

/-- Claim C1: the variation percentage rule. When the previous gain is 0
the variation is 0 for a zero current gain and plus or minus 100
matching the sign of the current gain; otherwise it is
(currentGain - previousGain) / abs(previousGain) * 100; in particular
previousGain = -10 and currentGain = 10 yield 200. -/
theorem c1_variation_percentage_rule (pg cg : ℚ) :
    (pg = 0 → cg = 0 → variation pg cg = 0) ∧
    (pg = 0 → 0 < cg → variation pg cg = 100) ∧
    (pg = 0 → cg < 0 → variation pg cg = -100) ∧
    (pg ≠ 0 → variation pg cg = (cg - pg) / |pg| * 100) ∧
    variation (-10) 10 = 200 := by
  refine ⟨?_, ?_, ?_, ?_, by norm_num [variation]⟩
  · rintro rfl rfl; simp [variation]
  · rintro rfl h; simp [variation, h.ne', h]
  · rintro rfl h; simp [variation, h.ne, h, not_lt.mpr h.le]
  · intro h; simp [variation, h]

/-- Witness for C1 at concrete gains. -/
theorem c1_witness :
    variation 0 5 = 100 ∧ variation 0 0 = 0 ∧ variation (-10) 10 = 200 :=
  ⟨(c1_variation_percentage_rule 0 5).2.1 rfl (by norm_num),
   (c1_variation_percentage_rule 0 0).1 rfl rfl,
   (c1_variation_percentage_rule 0 0).2.2.2.2⟩

/-- Claim C2: the handler computes a None correlation whenever fewer
than two day groups exist, but constructing the response model then
fails, because MetricsRelationshipChart declares correlation as a
required float; with a single day of data the request therefore ends in
a validation error instead of returning a payload with a null
correlation. -/
theorem c2_required_float_rejects_null :
    correlation_of [round2 50] [round2 60] = none ∧
    validate_required_float none =
      Except.error "MetricsRelationshipChart validation: correlation must be a float, not None" ∧
    get_scatter 20089 [{ day := 20089, avg_x := 50, avg_y := 60 }] =
      Except.error "MetricsRelationshipChart validation: correlation must be a float, not None" := by
  have hmk : mk_scatter_point 20089 { day := 20089, avg_x := 50, avg_y := 60 } =
      Except.ok { x := round2 50, y := round2 60, date := 20089, elapseDays := 0 } := by
    rw [mk_scatter_point, if_neg]
    · norm_num
    · push_neg
      constructor <;> norm_num [round2, round_eq]
  have hbp : build_points 20089 [{ day := 20089, avg_x := 50, avg_y := 60 }] =
      Except.ok [{ x := round2 50, y := round2 60, date := 20089, elapseDays := 0 }] := by
    rw [build_points_cons, hmk, ebind_ok]
    rfl
  refine ⟨rfl, rfl, ?_⟩
  unfold get_scatter
  rw [hbp]
  rfl

/-- Claim C3: for every matched record the bucket index is the floor of
the whole-day count divided by the bucket width; bucket keys are emitted
sorted ascending; and the 56 consecutive daily records starting
2025-01-01 with width 28 produce exactly the buckets 0 (days 0-27) and 1
(days 28-55). -/
theorem c3_bucket_index_assignment (s e : ℚ) (w : ℤ) (hw : 0 < w) (rs : List Meas) :
    (∀ r ∈ match_range s e rs,
      time_group s w r.ts = ⌊((⌊(r.ts - s) / 86400⌋ : ℤ) : ℚ) / (w : ℚ)⌋) ∧
    List.Sorted (fun a b => a ≤ b) (group_keys s w rs) ∧
    group_keys jan1_2025 28 (match_range jan1_2025 ex56_end ex56) = [0, 1] ∧
    group_of jan1_2025 28 0 (match_range jan1_2025 ex56_end ex56) = ex56.take 28 ∧
    group_of jan1_2025 28 1 (match_range jan1_2025 ex56_end ex56) = ex56.drop 28 := by
  refine ⟨?_, List.sorted_insertionSort _ _, keys56, take56, drop56⟩
  intro r hr
  rw [time_group, days_since_in_range s r.ts (mem_match_range hr).1, fdiv_eq_floor _ _ hw]

/-- Witness for C3 at the 56-day scenario. -/
theorem c3_witness :
    (0 : ℤ) < 28 ∧
    group_keys jan1_2025 28 (match_range jan1_2025 ex56_end ex56) = [0, 1] :=
  ⟨by norm_num,
   (c3_bucket_index_assignment jan1_2025 ex56_end 28 (by norm_num) ex56).2.2.1⟩

/-- Counterexample to C4 as stated: with two records at 10:00 and 12:00
of day 1 and a requested end at day 10, the effective end clamps to
midnight of day 1, and the emitted representative date (86400) is not
the bucket midpoint (126000). -/
theorem c4_counterexample :
    representative_date (effective_end 864000 (match_range 0 864000 exC4))
        (group_of 0 7 0 (match_range 0 864000 exC4)) ≠
      mid_ts (group_of 0 7 0 (match_range 0 864000 exC4)) ∧
    effective_end 864000 (match_range 0 864000 exC4) = 86400 ∧
    mid_ts (group_of 0 7 0 (match_range 0 864000 exC4)) = 126000 := by
  have hm : match_range 0 864000 exC4 = exC4 := by
    simp [match_range, exC4]
    norm_num
  have hgr : group_of 0 7 0 exC4 = exC4 := by
    simp [group_of, exC4, time_group, days_since_start, qtrunc]
    norm_num
    decide
  rw [hm, hgr]
  have hmax : max_ts exC4 = 129600 := max_exC4
  have heff : effective_end 864000 exC4 = 86400 := by
    rw [effective_end, hmax]
    norm_num [midnight]
  have hmid : mid_ts exC4 = 126000 := by
    simp [mid_ts, min_ts, max_ts, exC4, max_def, min_def]
    norm_num
  rw [representative_date, heff, hmid]
  norm_num

/-- Claim C4 amended: the emitted date is the midpoint of the earliest
and latest timestamps of the bucket clamped above at the effective end
date (the minimum of the two), so it never exceeds the effective end; a
single-record bucket's midpoint is that record's own timestamp; and the
effective end is the requested end clamped down to the maximum observed
timestamp truncated to midnight whenever that maximum is earlier. -/
theorem c4_representative_date (e effE : ℚ) (rs g : List Meas) :
    representative_date effE g = min (mid_ts g) effE ∧
    representative_date effE g ≤ effE ∧
    (∀ r : Meas, mid_ts [r] = r.ts) ∧
    (max_ts rs < e → effective_end e rs = midnight (max_ts rs)) ∧
    (¬ max_ts rs < e → effective_end e rs = e) := by
  have h1 : representative_date effE g = min (mid_ts g) effE := by
    rcases le_or_lt (mid_ts g) effE with h | h
    · rw [representative_date, if_neg (not_lt.mpr h), min_eq_left h]
    · rw [representative_date, if_pos h, min_eq_right h.le]
  refine ⟨h1, h1 ▸ min_le_right _ _, ?_,
    fun h => by rw [effective_end, if_pos h],
    fun h => by rw [effective_end, if_neg h]⟩
  intro r
  simp [mid_ts, min_ts, max_ts]

/-- Witness for C4 at the two-record scenario. -/
theorem c4_witness :
    max_ts exC4 < 864000 ∧
    effective_end 864000 exC4 = midnight (max_ts exC4) ∧
    representative_date (effective_end 864000 exC4)
        (group_of 0 7 0 (match_range 0 864000 exC4)) ≤
      effective_end 864000 exC4 ∧
    mid_ts [{ ts := 122400, val := 70 }] = 122400 := by
  have hmax : max_ts exC4 < 864000 := by rw [max_exC4]; norm_num
  have H := c4_representative_date 864000 (effective_end 864000 exC4) exC4
    (group_of 0 7 0 (match_range 0 864000 exC4))
  exact ⟨hmax, H.2.2.2.1 hmax, H.2.1, H.2.2.1 { ts := 122400, val := 70 }⟩

/-- Claim C5: a bucket with exactly one sample has a null polars
standard deviation, and every null standard deviation is emitted as 0
(the emitted field is a plain real, never a null). -/
theorem c5_std_null_to_zero (xs : List ℚ) :
    (xs.length = 1 → std_value xs = none ∧ emitted_std xs = 0) ∧
    (std_value xs = none → emitted_std xs = 0) := by
  have key : std_value xs = none → emitted_std xs = 0 := by
    intro hn; simp [emitted_std, hn, fill_null_zero]
  constructor
  · intro h
    have hn : std_value xs = none := by unfold std_value; rw [h]; norm_num
    exact ⟨hn, key hn⟩
  · exact key

/-- Witness for C5 at a one-sample bucket. -/
theorem c5_witness : std_value [70] = none ∧ emitted_std [70] = 0 :=
  (c5_std_null_to_zero [70]).1 rfl

/-- Counterexample to C6 as stated: for the accepted request from epoch
day 20089 (2025-01-01) to 20096, the current range is longer than the
previous range, so the two ranges are not of equal length. -/
theorem c6_counterexample :
    0 < vc_days 20089 20096 ∧
    current_range_length 20089 20096 ≠ previous_range_length 20089 20096 := by
  constructor
  · norm_num [vc_days, vc_end, vc_start, day_end_offset]
  · norm_num [current_range_length, previous_range_length, previous_period_start,
      vc_days, vc_end, vc_start, day_end_offset]

/-- Claim C6 amended: for every accepted request the day count is
end - start, previousStart = start - days, the previous range is
[previousStart, start) and the current range is [start, end] with the
end stamped 23:59:59.999999, and the current range is exactly one day
minus one microsecond longer than the previous range (it covers one more
calendar day). -/
theorem c6_window_derivation (sd ed : ℤ) (h : 0 < vc_days sd ed) :
    vc_days sd ed = ed - sd ∧
    previous_period_start sd ed = vc_start sd - (vc_days sd ed : ℚ) * 86400 ∧
    (∀ t : ℚ, in_previous_range sd ed t ↔
      previous_period_start sd ed ≤ t ∧ t < vc_start sd) ∧
    (∀ t : ℚ, in_current_range sd ed t ↔ vc_start sd ≤ t ∧ t ≤ vc_end ed) ∧
    current_range_length sd ed =
      previous_range_length sd ed + day_end_offset := by
  refine ⟨vc_days_eq sd ed, rfl, fun t => Iff.rfl, fun t => Iff.rfl, ?_⟩
  unfold current_range_length previous_range_length previous_period_start
  rw [vc_days_eq sd ed]
  unfold vc_end vc_start
  push_cast
  ring

/-- Witness for C6 at the one-week request. -/
theorem c6_witness :
    0 < vc_days 20089 20096 ∧
    current_range_length 20089 20096 =
      previous_range_length 20089 20096 + day_end_offset := by
  have h : 0 < vc_days 20089 20096 := by
    norm_num [vc_days, vc_end, vc_start, day_end_offset]
  exact ⟨h, (c6_window_derivation 20089 20096 h).2.2.2.2⟩

/-- Claim C7: for every emitted card the favorable flag is
variation > 0 for muscleMass, weight, totalBodyWater and
basalMetabolicRate, and variation < 0 for bodyFatMass, and a zero
variation is never favorable. -/
theorem c7_polarity_classification (v : ℚ) :
    variation_is_positive Metric.muscleMass v = decide (0 < v) ∧
    variation_is_positive Metric.weight v = decide (0 < v) ∧
    variation_is_positive Metric.totalBodyWater v = decide (0 < v) ∧
    variation_is_positive Metric.basalMetabolicRate v = decide (0 < v) ∧
    variation_is_positive Metric.bodyFatMass v = decide (v < 0) ∧
    (v = 0 → ∀ m : Metric, variation_is_positive m v = false) := by
  refine ⟨rfl, rfl, rfl, rfl, rfl, ?_⟩
  rintro rfl m
  cases m <;> simp [variation_is_positive, positive_measures]

/-- Witness for C7 at a zero variation. -/
theorem c7_witness : variation_is_positive Metric.weight 0 = false :=
  (c7_polarity_classification 0).2.2.2.2.2 rfl Metric.weight

/-- Counterexample to C8 as stated: on two same-day rows the
deduplication output follows neither the keep-first-of-day policy (its
weight is the day mean 75, not the first row's 70) nor the mean-of-day
policy (its timestamp is the first row's 0, not the mean 3600). -/
theorem c8_counterexample :
    dedup_by_day ex8 ≠ keep_first_policy ex8 ∧
    dedup_by_day ex8 ≠ mean_of_day_policy ex8 := by
  constructor
  · rw [dedup_ex8, keep_first_ex8]
    intro h
    norm_num [agg_ex8_row, RawRow.mk.injEq] at h
  · rw [dedup_ex8, mean_of_day_ex8]
    intro h
    norm_num [agg_ex8_row, RawRow.mk.injEq] at h

/-- Claim C8 amended: the output has at most one row per calendar day,
but the rows are a hybrid of the two policies: each output row carries
the chronologically first timestamp of its day together with the
per-field mean of the day's metric values (masses rounded to two
decimals, metabolic rate to an integer). -/
theorem c8_dedup_hybrid (rs : List RawRow) :
    ((dedup_by_day rs).map (fun r => day_of r.create_time)).Nodup ∧
    (∀ r' ∈ dedup_by_day rs,
      (∃ r ∈ rs, r.create_time = r'.create_time ∧
          day_of r.create_time = day_of r'.create_time) ∧
      (∀ r ∈ rs, day_of r.create_time = day_of r'.create_time →
          r'.create_time ≤ r.create_time) ∧
      r'.weight = round2 (mean_q ((rs.filter (fun r =>
          decide (day_of r.create_time = day_of r'.create_time))).map RawRow.weight)) ∧
      r'.muscle_mass = round2 (mean_q ((rs.filter (fun r =>
          decide (day_of r.create_time = day_of r'.create_time))).map RawRow.muscle_mass)) ∧
      r'.body_fat_mass = round2 (mean_q ((rs.filter (fun r =>
          decide (day_of r.create_time = day_of r'.create_time))).map RawRow.body_fat_mass)) ∧
      r'.basal_metabolic_rate = round (mean_q ((rs.filter (fun r =>
          decide (day_of r.create_time = day_of r'.create_time))).map
          (fun r => (r.basal_metabolic_rate : ℚ))))) := by
  have hday : ∀ d ∈ dedup_days rs,
      day_of (agg_day (group_rows rs d)).create_time = d := by
    intro d hd
    rw [agg_day_create_time]
    exact (group_rows_day rs d hd).2.2.1
  constructor
  · rw [dedup_by_day, List.map_map]
    rw [List.map_congr_left (fun d hd => by
      simp only [Function.comp]
      exact hday d hd)]
    simpa [dedup_days] using
      List.nodup_dedup (rs.map (fun r => day_of r.create_time))
  · intro r' hr'
    rw [dedup_by_day] at hr'
    obtain ⟨d, hd, rfl⟩ := List.mem_map.mp hr'
    have hgd := group_rows_day rs d hd
    have hdval := hday d hd
    rw [hdval]
    refine ⟨⟨(group_rows rs d).headI, hgd.2.1, rfl, hgd.2.2.1⟩, ?_, ?_, ?_, ?_, ?_⟩
    · intro r hr hrd
      exact hgd.2.2.2 r hr hrd
    · rw [show (agg_day (group_rows rs d)).weight =
          round2 (mean_q ((group_rows rs d).map RawRow.weight)) from rfl,
        mean_group_rows]
    · rw [show (agg_day (group_rows rs d)).muscle_mass =
          round2 (mean_q ((group_rows rs d).map RawRow.muscle_mass)) from rfl,
        mean_group_rows]
    · rw [show (agg_day (group_rows rs d)).body_fat_mass =
          round2 (mean_q ((group_rows rs d).map RawRow.body_fat_mass)) from rfl,
        mean_group_rows]
    · rw [show (agg_day (group_rows rs d)).basal_metabolic_rate =
          round (mean_q ((group_rows rs d).map
            (fun r => (r.basal_metabolic_rate : ℚ)))) from rfl,
        mean_group_rows]

/-- Witness for C8 at the two-row scenario: the emitted weight is the
rounded mean of the day's weights. -/
theorem c8_witness :
    agg_ex8_row.weight = round2 (mean_q ((ex8.filter (fun r =>
      decide (day_of r.create_time = day_of agg_ex8_row.create_time))).map
        RawRow.weight)) :=
  ((c8_dedup_hybrid ex8).2 agg_ex8_row
    (by rw [dedup_ex8]; exact List.mem_singleton.mpr rfl)).2.2.1

/-- Claim C9 amended: every point of a successfully built scatter list
satisfies x >= 0 and y >= 0, and a day whose per-day mean rounds to a
negative value at two decimals makes the whole request fail; a negative
mean that rounds to zero does not. -/
theorem c9_scatter_nonneg :
    (∀ (sd : ℤ) (docs : List DayDoc) (pts : List ScatterPoint),
      build_points sd docs = Except.ok pts → ∀ p ∈ pts, 0 ≤ p.x ∧ 0 ≤ p.y) ∧
    (∀ (sd : ℤ) (docs : List DayDoc),
      (∃ d ∈ docs, round2 d.avg_x < 0 ∨ round2 d.avg_y < 0) →
      ∃ msg, build_points sd docs = Except.error msg) := by
  constructor
  · intro sd docs
    induction docs with
    | nil =>
      intro pts h p hp
      rw [show build_points sd [] = Except.ok [] from rfl] at h
      injection h with h'
      rw [← h'] at hp
      simp at hp
    | cons d ds ih =>
      intro pts h p hp
      rw [build_points_cons] at h
      by_cases hneg : round2 d.avg_x < 0 ∨ round2 d.avg_y < 0
      · rw [mk_scatter_point, if_pos hneg, ebind_error] at h
        exact absurd h (by simp)
      · rw [mk_scatter_point, if_neg hneg, ebind_ok] at h
        cases htl : build_points sd ds with
        | error msg => rw [htl, ebind_error] at h; exact absurd h (by simp)
        | ok tail =>
          rw [htl, ebind_ok] at h
          injection h with h'
          push_neg at hneg
          rw [← h'] at hp
          rcases List.mem_cons.mp hp with rfl | hmem
          · exact ⟨hneg.1, hneg.2⟩
          · exact ih tail htl p hmem
  · intro sd docs hex
    induction docs with
    | nil => simp at hex
    | cons a ds ih =>
      rw [build_points_cons]
      by_cases ha : round2 a.avg_x < 0 ∨ round2 a.avg_y < 0
      · exact ⟨_, by rw [mk_scatter_point, if_pos ha, ebind_error]⟩
      · obtain ⟨d, hd, hdneg⟩ := hex
        rcases List.mem_cons.mp hd with rfl | hmem
        · exact absurd hdneg ha
        · obtain ⟨msg, hmsg⟩ := ih ⟨d, hmem, hdneg⟩
          refine ⟨msg, ?_⟩
          rw [mk_scatter_point, if_neg ha, ebind_ok, hmsg, ebind_error]

/-- Witness for C9: a mean that rounds to a negative value aborts the
point loop. -/
theorem c9_witness :
    ∃ msg, build_points 20089
      [{ day := 20089, avg_x := -5, avg_y := 50 }] = Except.error msg :=
  c9_scatter_nonneg.2 20089 [{ day := 20089, avg_x := -5, avg_y := 50 }]
    ⟨{ day := 20089, avg_x := -5, avg_y := 50 }, by simp,
      Or.inl (by norm_num [round2, round_eq])⟩

/-- Counterexample to C9 as stated: a day whose x mean is the negative
value -1/1000 does not fail the request; its mean rounds to 0, the point
is emitted with x = 0, and the whole scatter request succeeds. -/
theorem c9_counterexample :
    (-1 / 1000 : ℚ) < 0 ∧
    build_points 20089 exC9 =
      Except.ok [{ x := 0, y := 50, date := 20089, elapseDays := 0 },
                 { x := 1, y := 60, date := 20090, elapseDays := 1 }] ∧
    is_ok (get_scatter 20089 exC9) = true := by
  have hmk1 : mk_scatter_point 20089 { day := 20089, avg_x := -1 / 1000, avg_y := 50 } =
      Except.ok { x := 0, y := 50, date := 20089, elapseDays := 0 } := by
    rw [mk_scatter_point, if_neg]
    · norm_num [round2, round_eq]
    · push_neg
      constructor <;> norm_num [round2, round_eq]
  have hmk2 : mk_scatter_point 20089 { day := 20090, avg_x := 1, avg_y := 60 } =
      Except.ok { x := 1, y := 60, date := 20090, elapseDays := 1 } := by
    rw [mk_scatter_point, if_neg]
    · norm_num [round2, round_eq]
    · push_neg
      constructor <;> norm_num [round2, round_eq]
  have hbp : build_points 20089 exC9 =
      Except.ok [{ x := 0, y := 50, date := 20089, elapseDays := 0 },
                 { x := 1, y := 60, date := 20090, elapseDays := 1 }] := by
    unfold exC9
    rw [build_points_cons, hmk1, ebind_ok, build_points_cons, hmk2, ebind_ok]
    rfl
  refine ⟨by norm_num, hbp, ?_⟩
  unfold get_scatter
  rw [hbp]
  rfl

/-- Claim C10: every operation of a bulk upload carries a document with
all eight selected fields non-null (rows with any null are dropped
before the upsert), and applying the bulk write to a store whose
documents all have non-null metrics yields a store whose documents all
have non-null metrics. -/
theorem c10_ingestion_non_null (rs : List UploadRow) (store : List StoredDoc)
    (hstore : ∀ d ∈ store, metrics_non_null d) :
    (∀ op ∈ upload_ops rs, all_fields_non_null op.doc) ∧
    (∀ d ∈ apply_ops store (upload_ops rs), metrics_non_null d) := by
  refine ⟨upload_ops_all_non_null rs, ?_⟩
  refine apply_ops_non_null (upload_ops rs) ?_ store hstore
  intro op hop
  have h := upload_ops_all_non_null rs op hop
  exact ⟨h.2.2.1, h.2.2.2.1, h.2.2.2.2.1, h.2.2.2.2.2.1, h.2.2.2.2.2.2.1⟩

/-- Witness for C10: the surviving document of the example batch has all
fields non-null. -/
theorem c10_witness :
    all_fields_non_null
      { measureDate := some 0, timeOffset := some "UTC+0100",
        weight := some (round2 (70456 / 1000)), muscleMass := some (round2 30),
        bodyFatMass := some (round2 20), basalMetabolicRate := some 1500,
        totalBodyWater := some (round2 40), deviceId := some "devA" } :=
  (c10_ingestion_non_null exUpload [] (by simp)).1 _
    (by rw [upload_ops_exUpload]; exact List.mem_singleton.mpr rfl)
